import Mathlib

/-!
Shallow embedding of the supervision and recovery engine of the RTMP-BASE
repository (src/stream_manager.py), together with theorems settling the
frozen claims about its specification.

Numeric quantities (cpu percentage, memory in MB, frame drops, scores) are
modelled as rationals; Python float arithmetic on the values involved here
is exact, so the embedding is faithful on every input used below.
Failure tags and strategy names are the literal strings of the code.
The specification renames the ffmpeg child process to the abstract
word encoder (and reconnect_stream to reconnect); the theorems below are
stated with the literal code strings.
-/

namespace RTMPBase

/-- Metric sample fields read by the health scorer and the failure
classifier (collect_metrics produces more fields, but only these three are
consumed by the logic under verification). -/
structure Metrics where
  cpu_usage : ℚ
  memory_usage : ℚ
  frame_drops : ℚ
  deriving Repr, DecidableEq

/-! ## Health scoring (calculate_health_score, lines 1417-1459) -/

/-- Embeds the performance component of calculate_health_score:
cpu_score = max(0, 100 - (cpu_usage - 50)), memory_penalty =
max(0, (memory_usage - 500) / 10), result = max(0, min(100,
cpu_score - memory_penalty)). -/
def performance_score (m : Metrics) : ℚ :=
  let cpu_score := max 0 (100 - (m.cpu_usage - 50))
  let memory_penalty := max 0 ((m.memory_usage - 500) / 10)
  max 0 (min 100 (cpu_score - memory_penalty))

/-- Embeds the connection component: max(0, 100 - frame_drops * 2). -/
def connection_score (m : Metrics) : ℚ :=
  max 0 (100 - m.frame_drops * 2)

/-- Embeds the stability component: max(0, 100 - failure_count * 10). -/
def stability_score (failure_count : ℚ) : ℚ :=
  max 0 (100 - failure_count * 10)

/-- Embeds the composite health score of calculate_health_score for a live
instance: performance * 0.4 + connection * 0.4 + stability * 0.2. -/
def health_score (m : Metrics) (failure_count : ℚ) : ℚ :=
  performance_score m * (4 / 10) + connection_score m * (4 / 10) +
    stability_score failure_count * (2 / 10)

/-- The clamp to the interval used throughout section 4.2 of the
specification: clamp(x, 0, 100). -/
def clamp100 (x : ℚ) : ℚ := max 0 (min 100 x)

/-- Written from the words of the specification (section 4.2), for the
refinement comparison of claim C2: performance_score =
clamp(100 - max(0, cpu_percent - 50) - max(0, (memory_mb - 500) / 10), 0, 100). -/
def spec_performance_score (m : Metrics) : ℚ :=
  clamp100 (100 - max 0 (m.cpu_usage - 50) - max 0 ((m.memory_usage - 500) / 10))

/-- Written from the words of the specification: connection_score =
clamp(100 - frame_drops * 2, 0, 100). -/
def spec_connection_score (m : Metrics) : ℚ :=
  clamp100 (100 - m.frame_drops * 2)

/-- Written from the words of the specification: stability_score =
clamp(100 - failure_count * 10, 0, 100). -/
def spec_stability_score (failure_count : ℚ) : ℚ :=
  clamp100 (100 - failure_count * 10)

/-- Written from the words of the specification: health =
0.4 * performance + 0.4 * connection + 0.2 * stability, with the three
components as the specification defines them. -/
def spec_health_score (m : Metrics) (failure_count : ℚ) : ℚ :=
  (4 / 10) * spec_performance_score m + (4 / 10) * spec_connection_score m +
    (2 / 10) * spec_stability_score failure_count

/-! ## Failure classification (detect_failure_type, lines 1461-1483) -/

/-- Embeds detect_failure_type. The dead_processes argument lists the names
(keys of self.processes) of child processes whose poll() returned non-None,
in dictionary iteration order; the health argument is the current value of
self.health_score. Tags accumulate in the exact order of the code, and the
empty list is replaced by the singleton unknown_failure. -/
def detect_failure_type (dead_processes : List String) (m : Metrics)
    (health : ℚ) : List String :=
  let failure_types :=
    dead_processes.map (fun name => "process_failure_" ++ name) ++
    (if m.cpu_usage > 90 then ["high_cpu"] else []) ++
    (if m.memory_usage > 2000 then ["memory_exhaustion"] else []) ++
    (if m.frame_drops > 50 then ["connection_issues"] else []) ++
    (if health < 30 then ["critical_health"] else [])
  if failure_types = [] then ["unknown_failure"] else failure_types

/-! ## Recovery planning (_select_recovery_strategy, lines 1551-1564) -/

/-- Embeds the strategy_map dictionary lookup with default full_restart of
_select_recovery_strategy (dict.get on a dictionary with these eight keys,
written as the equivalent chain of equality tests). -/
def select_recovery_strategy (failure_type : String) : String :=
  if failure_type = "process_failure_ffmpeg" then "restart_ffmpeg"
  else if failure_type = "process_failure_renderer" then "restart_renderer"
  else if failure_type = "process_failure_display" then "restart_display"
  else if failure_type = "high_cpu" then "reduce_quality"
  else if failure_type = "memory_exhaustion" then "restart_all"
  else if failure_type = "connection_issues" then "reconnect_stream"
  else if failure_type = "critical_health" then "full_restart"
  else if failure_type = "unknown_failure" then "full_restart"
  else "full_restart"

/-- The recovery executor entry points reached from
_execute_recovery_strategy. -/
inductive RecoveryAction where
  | restartFFmpeg
  | restartRenderer
  | restartDisplay
  | reduceQuality
  | reconnectStream
  | fullRestart
  deriving Repr, DecidableEq

/-- Embeds the dispatch chain of _execute_recovery_strategy: each strategy
string selects its executor; restart_all and full_restart share the
_full_restart branch, and an unknown strategy falls through to
_full_restart after a warning. -/
def execute_recovery_strategy (strategy : String) : RecoveryAction :=
  if strategy = "restart_ffmpeg" then .restartFFmpeg
  else if strategy = "restart_renderer" then .restartRenderer
  else if strategy = "restart_display" then .restartDisplay
  else if strategy = "reduce_quality" then .reduceQuality
  else if strategy = "reconnect_stream" then .reconnectStream
  else if strategy = "restart_all" ∨ strategy = "full_restart" then .fullRestart
  else .fullRestart

/-- Embeds the body of _restart_display, which immediately delegates to
_full_restart (the virtual display underpins every other process); every
other executor performs its own action. -/
def effective_action : RecoveryAction → RecoveryAction
  | .restartDisplay => .fullRestart
  | a => a

/-- Embeds the selection of the primary failure in attempt_recovery:
failure_types[0] if failure_types else unknown_failure. -/
def primary_failure (failure_types : List String) : String :=
  failure_types.headD "unknown_failure"

/-- The recovery action actually carried out for a classifier result list:
planner applied to the first tag, then the executor dispatch, then the
delegation inside _restart_display. -/
def recovery_plan (failure_types : List String) : RecoveryAction :=
  effective_action (execute_recovery_strategy
    (select_recovery_strategy (primary_failure failure_types)))

/-- The eight failure tags that appear as keys of strategy_map. -/
def known_failure_tags : List String :=
  ["process_failure_ffmpeg", "process_failure_renderer",
   "process_failure_display", "high_cpu", "memory_exhaustion",
   "connection_issues", "critical_health", "unknown_failure"]

/-! ## Per-instance state and attempt_recovery (lines 1485-1549) -/

/-- The per-instance fields of StreamInstance that the supervision logic
reads and writes: status string, the names of the child processes currently
owned, the config quality tier, the cumulative failure_count, the cached
health score, and the recovery_in_progress flag. -/
structure StreamState where
  status : String
  processes : List String
  quality : String
  failure_count : Nat
  health_score : ℚ
  recovery_in_progress : Bool
  deriving Repr, DecidableEq

/-- Database side effects issued by attempt_recovery, in issue order. -/
inductive DbOp where
  | create_recovery_attempt (failure_type strategy : String)
  | update_recovery_attempt (retry_count : Nat) (success : Bool)
  | log_event (kind : String)
  | create_alert (kind severity : String)
  deriving Repr, DecidableEq

/-- Embeds attempt_recovery. The busy branch returns the rejection pair and
performs nothing. Otherwise the primary failure is taken from the head of
the list, a strategy is selected, a recovery-attempt record is created, the
strategy executes (its process-level outcome is abstracted by the exec
argument, since it depends on the operating system), the record is updated
with the outcome, failure_count is decremented (floored at zero, which Nat
subtraction gives) on success or incremented on failure, and the flag is
false again when the call returns. -/
def attempt_recovery (s : StreamState) (failure_types : List String)
    (exec : Bool) : (Bool × String) × StreamState × List DbOp :=
  if s.recovery_in_progress then
    ((false, "Recovery already in progress"), s, [])
  else
    let primary := primary_failure failure_types
    let strategy := select_recovery_strategy primary
    let success := exec
    let s1 : StreamState :=
      { s with recovery_in_progress := false,
               failure_count :=
                 if success then s.failure_count - 1 else s.failure_count + 1 }
    ((success, if success then "Recovery successful" else "Recovery failed"),
     s1,
     [DbOp.create_recovery_attempt primary strategy,
      DbOp.update_recovery_attempt 1 success] ++
     (if success then [DbOp.log_event "recovery_success"]
      else [DbOp.create_alert "recovery_failed" "critical"]))

/-! ## Quality ladder (_reduce_quality, lines 1662-1686) -/

/-- The ordered quality ladder of _reduce_quality. -/
def quality_levels : List String := ["ultra", "high", "medium", "low"]

/-- Embeds _reduce_quality as a function of the current quality tier. When
the tier is in the ladder and not the last entry, the config moves to the
next entry and the strategy returns the outcome of the _full_restart it
then performs (abstracted by restart_ok); otherwise it returns failure with
the tier unchanged. The returned pair is (call outcome, resulting tier). -/
def reduce_quality (current_quality : String) (restart_ok : Bool) :
    Bool × String :=
  if current_quality ∈ quality_levels then
    let current_index := quality_levels.indexOf current_quality
    if current_index < quality_levels.length - 1 then
      (restart_ok, quality_levels.getD (current_index + 1) current_quality)
    else
      (false, current_quality)
  else
    (false, current_quality)

/-! ## Monitor loop (_monitor_streams, lines 1745-1834) and
start_streaming (lines 898-945) -/

/-- Embeds start_streaming. A live instance is rejected immediately with
the state unchanged. Otherwise the smart start sequence runs; its
process-spawning outcome is abstracted by launch_ok. On success the status
becomes live and the child process set holds the renderer and the ffmpeg
encoder; on a launch exception cleanup() empties the process set and the
error result is returned. -/
def start_streaming (s : StreamState) (launch_ok : Bool) :
    (Bool × String) × StreamState :=
  if s.status = "live" then
    ((false, "Stream is already running"), s)
  else if launch_ok then
    ((true, "Stream started successfully"),
     { s with status := "live", processes := ["renderer", "ffmpeg"] })
  else
    ((false, "Error starting stream"), { s with processes := [] })

/-- Embeds the metrics branch of the monitor loop body for one live
instance with all child processes running: the health score is recomputed
and stored, and when it is below 50 while no recovery is in progress the
failure types are detected and, when the list is non-empty and does not
contain unknown_failure, the same attempt_recovery used for hard failures
runs preemptively. Returns the recovery result when one was attempted. -/
def metrics_pass (s : StreamState) (m : Metrics) (dead_processes : List String)
    (exec : Bool) : Option ((Bool × String) × StreamState × List DbOp) :=
  let health := health_score m (s.failure_count : ℚ)
  if health < 50 ∧ s.recovery_in_progress = false then
    let failure_types := detect_failure_type dead_processes m health
    if failure_types ≠ [] ∧ "unknown_failure" ∉ failure_types then
      some (attempt_recovery s failure_types exec)
    else none
  else none

/-- Embeds one iteration of the monitor loop body for a single instance.
Everything is guarded by status == live. When some child process has died,
failure types are detected with the cached health score and attempt_recovery
runs; on recovery failure the instance is cleaned up and moved to error.
Otherwise, when the coarser metrics interval has elapsed (metrics_due), the
metrics branch runs. An instance whose status is not live is untouched. -/
def monitor_step (s : StreamState) (m : Metrics) (dead_processes : List String)
    (metrics_due : Bool) (exec : Bool) : StreamState :=
  if s.status = "live" then
    if dead_processes ≠ [] then
      let failure_types := detect_failure_type dead_processes m s.health_score
      let r := attempt_recovery s failure_types exec
      if r.1.1 then r.2.1
      else { r.2.1 with status := "error", processes := [] }
    else if metrics_due then
      let s1 := { s with health_score := health_score m (s.failure_count : ℚ) }
      match metrics_pass s1 m dead_processes exec with
      | some r => r.2.1
      | none => s1
    else s
  else s

/-! ## Multi-target fan-out (_get_stream_targets lines 1249-1274,
_build_rtmp_url lines 1266-1274, _start_ffmpeg_stream lines 1228-1247) -/

/-- One entry of multi_stream_targets as stored in the config. -/
structure MultiStreamTarget where
  platform : String
  stream_key : String
  rtmp_url : Option String
  enabled : Bool
  deriving Repr, DecidableEq

/-- Embeds _build_rtmp_url over an association list of platform name to
RTMP base URL (self.platform_configs). The custom branch applies when the
platform is the string custom and a custom URL was supplied; an unknown
platform raises, embedded as the error constructor. -/
def build_rtmp_url (platform_configs : List (String × String))
    (platform stream_key : String) (custom_url : Option String) :
    Except String String :=
  if platform = "custom" ∧ custom_url ≠ none then
    .ok (custom_url.getD "" ++ "/" ++ stream_key)
  else
    match platform_configs.lookup platform with
    | some base => .ok (base ++ stream_key)
    | none => .error ("Unsupported platform: " ++ platform)

/-- Embeds the loop of _get_stream_targets over the additional
multi-stream targets: disabled entries are skipped, each enabled entry is
resolved in input order, and the first raised resolution error aborts the
whole computation. -/
def resolve_targets (platform_configs : List (String × String)) :
    List MultiStreamTarget → Except String (List String)
  | [] => .ok []
  | t :: rest =>
    if t.enabled then do
      let url ← build_rtmp_url platform_configs t.platform t.stream_key t.rtmp_url
      let urls ← resolve_targets platform_configs rest
      .ok (url :: urls)
    else
      resolve_targets platform_configs rest

/-- Embeds _get_stream_targets: the primary target of the config resolved
first, followed by the resolved enabled multi-stream targets in input
order. -/
def get_stream_targets (platform_configs : List (String × String))
    (platform stream_key : String) (custom_url : Option String)
    (multi : List MultiStreamTarget) : Except String (List String) := do
  let primary ← build_rtmp_url platform_configs platform stream_key custom_url
  let rest ← resolve_targets platform_configs multi
  .ok (primary :: rest)

/-- Embeds the output section of the ffmpeg command built by
_start_ffmpeg_stream: a single target gets a plain flv output, more than
one target goes through the tee muxer listing every resolved URL in input
order. -/
def ffmpeg_output_args (targets : List String) : List String :=
  if targets.length = 1 then
    ["-f", "flv", targets.getD 0 ""]
  else
    ["-f", "tee",
     String.intercalate "|" (targets.map (fun t => "[f=flv]" ++ t))]

/-! ## Recovery-attempt store (create_recovery_attempt lines 439-452,
update_recovery_attempt lines 454-466) -/

/-- One row of the stream_recovery table, with the fields claim C9 reads:
the pipeline id, the success flag (schema default FALSE), and whether
update_recovery_attempt has run on the row (a row between its INSERT and
its UPDATE is the in-flight attempt). Row ids are list positions. -/
structure RecoveryRecord where
  stream_id : String
  success : Bool
  updated : Bool
  deriving Repr, DecidableEq

/-- Embeds create_recovery_attempt: INSERT a row whose success flag takes
the schema default FALSE, returning the fresh row id (lastrowid). -/
def create_recovery_attempt (db : List RecoveryRecord) (stream_id : String) :
    List RecoveryRecord × Nat :=
  (db ++ [{ stream_id := stream_id, success := false, updated := false }],
   db.length)

/-- Embeds update_recovery_attempt: UPDATE the row with the given id,
setting its success flag to the outcome. -/
def update_recovery_attempt (db : List RecoveryRecord) (recovery_id : Nat)
    (success : Bool) : List RecoveryRecord :=
  match db.get? recovery_id with
  | some r => db.set recovery_id { r with success := success, updated := true }
  | none => db

/-- The store effect of one completed attempt_recovery call: create the
record, run the strategy, update the same record with the outcome. -/
def attempt_recovery_db (db : List RecoveryRecord) (stream_id : String)
    (outcome : Bool) : List RecoveryRecord :=
  let created := create_recovery_attempt db stream_id
  update_recovery_attempt created.1 created.2 outcome

/-- The store after a sequence of completed attempt_recovery calls, each
given as a pipeline id and the outcome of its strategy execution. -/
def run_attempts : List RecoveryRecord → List (String × Bool) → List RecoveryRecord
  | db, [] => db
  | db, (stream_id, outcome) :: rest =>
    run_attempts (attempt_recovery_db db stream_id outcome) rest

/-- Number of rows for a pipeline whose success flag is false (the notion
of unresolved used by the claim as frozen). -/
def unresolved_count (db : List RecoveryRecord) (stream_id : String) : Nat :=
  (db.filter (fun r => r.stream_id == stream_id && r.success == false)).length

/-- Number of rows for a pipeline created but not yet updated (the
in-flight attempts). -/
def pending_count (db : List RecoveryRecord) (stream_id : String) : Nat :=
  (db.filter (fun r => r.stream_id == stream_id && r.updated == false)).length

/-- Platform catalog used for concrete fan-out examples, the fallback
table hard-coded in _load_platform_configs. -/
def demo_platform_configs : List (String × String) :=
  [("youtube", "rtmp://a.rtmp.youtube.com/live2/"),
   ("twitch", "rtmp://live.twitch.tv/live/"),
   ("facebook", "rtmps://live-api-s.facebook.com:443/rtmp/")]

/-! ## Helper lemmas -/

/-- Any failure tag outside the eight known keys falls through the
dictionary default of _select_recovery_strategy. -/
theorem select_recovery_strategy_default (tag : String)
    (h : tag ∉ known_failure_tags) :
    select_recovery_strategy tag = "full_restart" := by
  simp only [known_failure_tags, List.mem_cons, List.not_mem_nil, or_false,
    not_or] at h
  obtain ⟨h1, h2, h3, h4, h5, h6, h7, h8⟩ := h
  simp [select_recovery_strategy, h1, h2, h3, h4, h5, h6, h7, h8]

/-- Bounds for the performance component. -/
theorem performance_score_bounds (m : Metrics) :
    0 ≤ performance_score m ∧ performance_score m ≤ 100 := by
  unfold performance_score
  exact ⟨le_max_left _ _, max_le (by norm_num) (min_le_left _ _)⟩

/-- Bounds for the connection component when frame drops are
non-negative. -/
theorem connection_score_bounds (m : Metrics) (h : 0 ≤ m.frame_drops) :
    0 ≤ connection_score m ∧ connection_score m ≤ 100 := by
  unfold connection_score
  exact ⟨le_max_left _ _, max_le (by norm_num) (by linarith)⟩

/-- Bounds for the stability component when the failure count is
non-negative. -/
theorem stability_score_bounds (fc : ℚ) (h : 0 ≤ fc) :
    0 ≤ stability_score fc ∧ stability_score fc ≤ 100 := by
  unfold stability_score
  exact ⟨le_max_left _ _, max_le (by norm_num) (by linarith)⟩

/-! ## Claims -/

/-- C1: the recovery planner, applied to the first tag of the classifier
result list, is a deterministic total function whose executed action maps
the encoder-process failure tag (the code string process_failure_ffmpeg) to
the encoder restart, process_failure_renderer to the renderer restart,
process_failure_display to the restart_display strategy whose executor
escalates to the full restart, high_cpu to the quality reduction,
memory_exhaustion to the full restart (through the restart_all branch of
the executor), connection_issues to the reconnect action, critical_health
and unknown_failure to the full restart, and every tag outside the known
set to the full restart. -/
theorem C1_recovery_planner_mapping :
    (∀ rest, recovery_plan ("process_failure_ffmpeg" :: rest) = .restartFFmpeg) ∧
    (∀ rest, recovery_plan ("process_failure_renderer" :: rest) = .restartRenderer) ∧
    (select_recovery_strategy "process_failure_display" = "restart_display" ∧
      execute_recovery_strategy "restart_display" = .restartDisplay ∧
      effective_action .restartDisplay = .fullRestart ∧
      ∀ rest, recovery_plan ("process_failure_display" :: rest) = .fullRestart) ∧
    (∀ rest, recovery_plan ("high_cpu" :: rest) = .reduceQuality) ∧
    (∀ rest, recovery_plan ("memory_exhaustion" :: rest) = .fullRestart) ∧
    (∀ rest, recovery_plan ("connection_issues" :: rest) = .reconnectStream) ∧
    (∀ rest, recovery_plan ("critical_health" :: rest) = .fullRestart) ∧
    (∀ rest, recovery_plan ("unknown_failure" :: rest) = .fullRestart) ∧
    (∀ tag rest, tag ∉ known_failure_tags →
      recovery_plan (tag :: rest) = .fullRestart) := by
  refine ⟨fun _ => rfl, fun _ => rfl, ⟨rfl, rfl, rfl, fun _ => rfl⟩,
    fun _ => rfl, fun _ => rfl, fun _ => rfl, fun _ => rfl, fun _ => rfl,
    fun tag rest h => ?_⟩
  unfold recovery_plan primary_failure
  rw [List.headD_cons, select_recovery_strategy_default tag h]
  rfl

/-- Witness for C1 at a concrete unmapped tag (a chrome renderer process
key, which the strategy map does not know). -/
theorem C1_witness :
    "process_failure_chrome" ∉ known_failure_tags ∧
    recovery_plan ["process_failure_chrome"] = .fullRestart :=
  ⟨by decide,
   C1_recovery_planner_mapping.2.2.2.2.2.2.2.2 "process_failure_chrome" []
     (by decide)⟩

/-- C2 counterexample: at cpu 0, memory 800 MB, no frame drops and no
failures, the code computes health 100 while the formulas of the
specification give 88, because the code gives low cpu a bonus above 100
(cpu_score = 150) that absorbs the memory penalty before clamping. -/
theorem C2_counterexample :
    health_score ⟨0, 800, 0⟩ 0 = 100 ∧
    spec_health_score ⟨0, 800, 0⟩ 0 = 88 ∧
    health_score ⟨0, 800, 0⟩ 0 ≠ spec_health_score ⟨0, 800, 0⟩ 0 := by
  norm_num [health_score, spec_health_score, performance_score,
    spec_performance_score, connection_score, spec_connection_score,
    stability_score, spec_stability_score, clamp100, max_def, min_def]

/-- C2 amended: for every metric reading (frame drops and failure count
non-negative), the components of calculate_health_score equal the
specification formulas with the performance formula amended to
performance_score = clamp(max(0, 100 - (cpu_percent - 50)) -
max(0, (memory_mb - 500) / 10), 0, 100): the unclamped cpu term
100 - (cpu_percent - 50) is floored at 0 before the memory penalty is
subtracted, rather than the cpu penalty max(0, cpu_percent - 50) being
subtracted from 100. Connection, stability and the composite weights are
as the specification states. -/
theorem C2_amended_health_formulas (m : Metrics) (fc : ℚ)
    (hfd : 0 ≤ m.frame_drops) (hfc : 0 ≤ fc) :
    performance_score m =
      clamp100 (max 0 (100 - (m.cpu_usage - 50)) -
        max 0 ((m.memory_usage - 500) / 10)) ∧
    connection_score m = clamp100 (100 - m.frame_drops * 2) ∧
    stability_score fc = clamp100 (100 - fc * 10) ∧
    health_score m fc =
      (4 / 10) * performance_score m + (4 / 10) * connection_score m +
        (2 / 10) * stability_score fc := by
  refine ⟨rfl, ?_, ?_, by unfold health_score; ring⟩
  · unfold connection_score clamp100
    rw [min_eq_right (by linarith)]
  · unfold stability_score clamp100
    rw [min_eq_right (by linarith)]

/-- Witness for C2 at the reading cpu 60, memory 700 MB, 5 frame drops,
2 accumulated failures. -/
theorem C2_witness :
    performance_score ⟨60, 700, 5⟩ =
      clamp100 (max 0 (100 - ((60 : ℚ) - 50)) - max 0 (((700 : ℚ) - 500) / 10)) ∧
    connection_score ⟨60, 700, 5⟩ = clamp100 (100 - (5 : ℚ) * 2) ∧
    stability_score 2 = clamp100 (100 - (2 : ℚ) * 10) ∧
    health_score ⟨60, 700, 5⟩ 2 =
      (4 / 10) * performance_score ⟨60, 700, 5⟩ +
        (4 / 10) * connection_score ⟨60, 700, 5⟩ +
        (2 / 10) * stability_score 2 :=
  C2_amended_health_formulas ⟨60, 700, 5⟩ 2 (by norm_num) (by norm_num)

/-- C3 counterexample: with a negative frame-drop input the connection
component exceeds 100 (it is only floored, never capped), so the composite
health score reaches 108, outside the interval [0, 100]. -/
theorem C3_counterexample :
    health_score ⟨0, 0, -10⟩ 0 = 108 ∧
    ¬(health_score ⟨0, 0, -10⟩ 0 ≤ 100) := by
  norm_num [health_score, performance_score, connection_score,
    stability_score, max_def, min_def]

/-- C3 amended: for every combination of cpu_percent and memory_mb inputs,
and every non-negative frame_drops and failure_count, the health score
lies in the closed interval [0, 100]; a negative frame-drop or
failure-count input can push it above 100 because those two components are
floored at 0 but not capped at 100. -/
theorem C3_amended_health_bounded (m : Metrics) (fc : ℚ)
    (hfd : 0 ≤ m.frame_drops) (hfc : 0 ≤ fc) :
    0 ≤ health_score m fc ∧ health_score m fc ≤ 100 := by
  obtain ⟨p0, p1⟩ := performance_score_bounds m
  obtain ⟨c0, c1⟩ := connection_score_bounds m hfd
  obtain ⟨s0, s1⟩ := stability_score_bounds fc hfc
  unfold health_score
  constructor <;> nlinarith

/-- Witness for C3 at cpu 250, memory 5000 MB, 30 frame drops, 4
failures. -/
theorem C3_witness :
    0 ≤ health_score ⟨250, 5000, 30⟩ 4 ∧
    health_score ⟨250, 5000, 30⟩ 4 ≤ 100 :=
  C3_amended_health_bounded ⟨250, 5000, 30⟩ 4 (by norm_num) (by norm_num)

/-- C4: a second attempt_recovery on an instance whose recovery_in_progress
flag is set is rejected with the concurrent-recovery failure result and
performs no work (state and store untouched); a completed attempt (success
or failure) leaves the flag false, and a subsequent attempt_recovery is
accepted: it does not return the rejection message and performs recovery
work. -/
theorem C4_recovery_serialized (s : StreamState) (failure_types : List String)
    (exec : Bool) :
    (s.recovery_in_progress = true →
      attempt_recovery s failure_types exec =
        ((false, "Recovery already in progress"), s, [])) ∧
    (s.recovery_in_progress = false →
      (attempt_recovery s failure_types exec).2.1.recovery_in_progress = false ∧
      ∀ fts2 e2,
        (attempt_recovery (attempt_recovery s failure_types exec).2.1 fts2
            e2).1.2 ≠ "Recovery already in progress" ∧
        (attempt_recovery (attempt_recovery s failure_types exec).2.1 fts2
            e2).2.2 ≠ ([] : List DbOp)) := by
  constructor
  · intro h
    simp [attempt_recovery, h]
  · intro h
    have h1 : (attempt_recovery s failure_types exec).2.1.recovery_in_progress
        = false := by
      simp [attempt_recovery, h]
    refine ⟨h1, fun fts2 e2 => ?_⟩
    rw [attempt_recovery, if_neg (by simp [h1])]
    cases e2 <;> simp

/-- Witness for C4: a busy instance rejects the call unchanged, and after a
completed attempt on an idle instance the flag is false again. -/
theorem C4_witness :
    attempt_recovery ⟨"live", ["renderer", "ffmpeg"], "medium", 2, 80, true⟩
        ["high_cpu"] true =
      ((false, "Recovery already in progress"),
       ⟨"live", ["renderer", "ffmpeg"], "medium", 2, 80, true⟩, []) ∧
    (attempt_recovery ⟨"live", ["renderer", "ffmpeg"], "medium", 2, 80, false⟩
        ["high_cpu"] true).2.1.recovery_in_progress = false :=
  ⟨(C4_recovery_serialized ⟨"live", ["renderer", "ffmpeg"], "medium", 2, 80,
      true⟩ ["high_cpu"] true).1 rfl,
   ((C4_recovery_serialized ⟨"live", ["renderer", "ffmpeg"], "medium", 2, 80,
      false⟩ ["high_cpu"] true).2 rfl).1⟩

/-- C5: the reduce_quality strategy steps the tier exactly one notch down
the ladder ultra, high, medium, low per successful call (the tier moves and
the call reports the outcome of the restart it performs); at low the call
fails with the tier unchanged; three successful steps from ultra reach low;
and the resulting tier always stays inside the ladder, so no call produces
a tier below low. -/
theorem C5_quality_ladder :
    (∀ b, reduce_quality "ultra" b = (b, "high")) ∧
    (∀ b, reduce_quality "high" b = (b, "medium")) ∧
    (∀ b, reduce_quality "medium" b = (b, "low")) ∧
    (∀ b, reduce_quality "low" b = (false, "low")) ∧
    (reduce_quality ((reduce_quality ((reduce_quality "ultra" true).2)
        true).2) true).2 = "low" ∧
    (∀ q, q ∈ quality_levels → ∀ b,
      (reduce_quality q b).2 ∈ quality_levels) := by
  refine ⟨fun _ => rfl, fun _ => rfl, fun _ => rfl, fun _ => rfl, rfl,
    fun q hq b => ?_⟩
  fin_cases hq <;> cases b <;> decide

/-- Witness for C5 at the tier high. -/
theorem C5_witness :
    (reduce_quality "high" true).2 ∈ quality_levels :=
  C5_quality_ladder.2.2.2.2.2 "high" (by decide) true

/-- C6 counterexample: a live instance with every child process running,
health 44 (below 50) and no recovery in progress, whose metrics breach no
classifier threshold (cpu 90, memory 0, 25 frame drops, 10 accumulated
failures), classifies as unknown_failure only, and the metrics pass
triggers no preemptive recovery, contradicting the claim that every such
instance gets one. -/
theorem C6_counterexample :
    health_score ⟨90, 0, 25⟩ ((10 : ℕ) : ℚ) < 50 ∧
    detect_failure_type [] ⟨90, 0, 25⟩
        (health_score ⟨90, 0, 25⟩ ((10 : ℕ) : ℚ)) = ["unknown_failure"] ∧
    metrics_pass ⟨"live", ["renderer", "ffmpeg"], "medium", 10, 80, false⟩
        ⟨90, 0, 25⟩ [] true = none := by
  have hh : health_score ⟨90, 0, 25⟩ (10 : ℚ) = 44 := by
    norm_num [health_score, performance_score, connection_score,
      stability_score, max_def, min_def]
  refine ⟨by norm_num [hh], by norm_num [hh, detect_failure_type], ?_⟩
  simp only [metrics_pass]
  norm_num [hh, detect_failure_type]

/-- C6 amended: for every live instance with all child processes running
whose computed health score is below 50 and whose recovery_in_progress
flag is false, the metrics pass of the monitor loop triggers a preemptive
recovery through the same classifier, planner and executor path as a hard
failure, provided the classifier result is non-empty and does not contain
the unknown_failure tag; when the classifier yields only unknown_failure,
no preemptive recovery runs. -/
theorem C6_amended_preemptive (s : StreamState) (m : Metrics)
    (dead_processes : List String) (exec : Bool)
    (h1 : health_score m (s.failure_count : ℚ) < 50)
    (h2 : s.recovery_in_progress = false)
    (h3 : detect_failure_type dead_processes m
        (health_score m (s.failure_count : ℚ)) ≠ [])
    (h4 : "unknown_failure" ∉ detect_failure_type dead_processes m
        (health_score m (s.failure_count : ℚ))) :
    metrics_pass s m dead_processes exec =
      some (attempt_recovery s
        (detect_failure_type dead_processes m
          (health_score m (s.failure_count : ℚ))) exec) := by
  simp only [metrics_pass]
  rw [if_pos ⟨h1, h2⟩, if_pos ⟨h3, h4⟩]

/-- Witness for C6 at a live instance with health 42 and a high_cpu
symptom (cpu 95). -/
theorem C6_witness :
    metrics_pass ⟨"live", ["renderer", "ffmpeg"], "medium", 10, 80, false⟩
        ⟨95, 0, 25⟩ [] true =
      some (attempt_recovery
        ⟨"live", ["renderer", "ffmpeg"], "medium", 10, 80, false⟩
        (detect_failure_type [] ⟨95, 0, 25⟩
          (health_score ⟨95, 0, 25⟩ ((10 : ℕ) : ℚ))) true) :=
  C6_amended_preemptive ⟨"live", ["renderer", "ffmpeg"], "medium", 10, 80,
      false⟩ ⟨95, 0, 25⟩ [] true
    (by norm_num [health_score, performance_score, connection_score,
      stability_score, max_def, min_def])
    rfl
    (by norm_num [detect_failure_type, health_score, performance_score,
      connection_score, stability_score, max_def, min_def])
    (by
      norm_num [detect_failure_type, health_score, performance_score,
        connection_score, stability_score, max_def, min_def]
      decide)

/-- A resolution failure on any enabled multi-stream target makes the whole
target-list resolution fail. -/
theorem resolve_targets_error (platform_configs : List (String × String)) :
    ∀ (multi : List MultiStreamTarget) (t : MultiStreamTarget), t ∈ multi →
      t.enabled = true →
      ∀ e, build_rtmp_url platform_configs t.platform t.stream_key t.rtmp_url
          = .error e →
        ∃ e2, resolve_targets platform_configs multi = .error e2 := by
  intro multi
  induction multi with
  | nil => intro t ht; exact absurd ht (List.not_mem_nil t)
  | cons hd tl ih =>
    intro t ht hen e hb
    rcases List.mem_cons.mp ht with h | h
    · subst h
      refine ⟨e, ?_⟩
      simp only [resolve_targets, if_pos hen, hb]
      rfl
    · obtain ⟨e2, h2⟩ := ih t h hen e hb
      by_cases hhd : hd.enabled
      · cases hbuild : build_rtmp_url platform_configs hd.platform
            hd.stream_key hd.rtmp_url with
        | error e3 =>
          refine ⟨e3, ?_⟩
          simp only [resolve_targets, if_pos hhd, hbuild]
          rfl
        | ok u =>
          refine ⟨e2, ?_⟩
          simp only [resolve_targets, if_pos hhd, hbuild, h2]
          rfl
      · refine ⟨e2, ?_⟩
        simp only [resolve_targets, if_neg hhd]
        exact h2

/-- C7 counterexample: a disabled multi-stream target whose platform name
(nosuch) is not resolvable does not abort resolution - the target list
still resolves to the primary URL alone - refuting the claim that an
unresolvable platform name in any target makes resolution raise. -/
theorem C7_counterexample :
    build_rtmp_url demo_platform_configs "nosuch" "k2" none =
      .error "Unsupported platform: nosuch" ∧
    get_stream_targets demo_platform_configs "youtube" "keyA" none
        [⟨"nosuch", "k2", none, false⟩] =
      .ok ["rtmp://a.rtmp.youtube.com/live2/keyA"] :=
  ⟨rfl, rfl⟩

/-- C7 amended: resolving the output targets yields a flat list headed by
the primary target and followed by the resolved enabled multi-stream
targets in input order; the encoder command uses a single flv output for
exactly one entry and the tee muxer listing every resolved URL in input
order for more than one; and if the primary target or any enabled target
has an unresolvable platform name, resolution fails as a whole and no
partial target list is produced (disabled targets are skipped and cannot
abort the start). -/
theorem C7_amended_fanout (platform_configs : List (String × String))
    (platform stream_key : String) (custom_url : Option String)
    (multi : List MultiStreamTarget) :
    (∀ u us,
      build_rtmp_url platform_configs platform stream_key custom_url = .ok u →
      resolve_targets platform_configs multi = .ok us →
      get_stream_targets platform_configs platform stream_key custom_url multi
        = .ok (u :: us)) ∧
    (∀ e,
      build_rtmp_url platform_configs platform stream_key custom_url
          = .error e →
      get_stream_targets platform_configs platform stream_key custom_url multi
        = .error e) ∧
    (∀ t, t ∈ multi → t.enabled = true →
      ∀ e, build_rtmp_url platform_configs t.platform t.stream_key t.rtmp_url
          = .error e →
        ∃ e2, get_stream_targets platform_configs platform stream_key
            custom_url multi = .error e2) ∧
    (∀ u, ffmpeg_output_args [u] = ["-f", "flv", u]) ∧
    (∀ u v ts, ffmpeg_output_args (u :: v :: ts) =
      ["-f", "tee",
       String.intercalate "|" ((u :: v :: ts).map (fun t => "[f=flv]" ++ t))]) := by
  refine ⟨?_, ?_, ?_, fun u => rfl, fun u v ts => ?_⟩
  · intro u us h1 h2
    simp only [get_stream_targets, h1, h2]
    rfl
  · intro e h1
    simp only [get_stream_targets, h1]
    rfl
  · intro t ht hen e hb
    obtain ⟨e2, h2⟩ := resolve_targets_error platform_configs multi t ht hen e hb
    cases hbuild : build_rtmp_url platform_configs platform stream_key
        custom_url with
    | error e3 =>
      refine ⟨e3, ?_⟩
      simp only [get_stream_targets, hbuild]
      rfl
    | ok u =>
      refine ⟨e2, ?_⟩
      simp only [get_stream_targets, hbuild, h2]
      rfl
  · simp [ffmpeg_output_args]

/-- Witness for C7: a youtube primary with an enabled twitch target
resolves to the two URLs in input order, and the tee command lists both. -/
theorem C7_witness :
    get_stream_targets demo_platform_configs "youtube" "keyA" none
        [⟨"twitch", "keyB", none, true⟩] =
      .ok ["rtmp://a.rtmp.youtube.com/live2/keyA",
           "rtmp://live.twitch.tv/live/keyB"] :=
  (C7_amended_fanout demo_platform_configs "youtube" "keyA" none
      [⟨"twitch", "keyB", none, true⟩]).1
    "rtmp://a.rtmp.youtube.com/live2/keyA"
    ["rtmp://live.twitch.tv/live/keyB"] rfl rfl

/-- C8: an instance whose status is error is untouched by the monitor loop
body - the failure-detection, recovery and metrics branches are all guarded
by the live status - while an explicit start_streaming call does move it
(to live when the launch succeeds). -/
theorem C8_error_is_terminal (s : StreamState) (m : Metrics)
    (dead_processes : List String) (metrics_due : Bool) (exec : Bool)
    (h : s.status = "error") :
    monitor_step s m dead_processes metrics_due exec = s ∧
    (start_streaming s true).2.status = "live" := by
  have hne : ¬(s.status = "live") := by rw [h]; decide
  constructor
  · simp [monitor_step, hne]
  · simp [start_streaming, hne]

/-- Witness for C8 at a concrete errored instance. -/
theorem C8_witness :
    monitor_step ⟨"error", [], "medium", 3, 20, false⟩ ⟨95, 3000, 60⟩
        ["ffmpeg"] true true = ⟨"error", [], "medium", 3, 20, false⟩ ∧
    (start_streaming ⟨"error", [], "medium", 3, 20, false⟩ true).2.status
        = "live" :=
  C8_error_is_terminal ⟨"error", [], "medium", 3, 20, false⟩ ⟨95, 3000, 60⟩
    ["ffmpeg"] true true rfl

/-- Every row appended by a completed attempt_recovery call has been
updated with its outcome: the call INSERTs a fresh row and immediately
UPDATEs that same row id. -/
theorem attempt_recovery_db_eq (db : List RecoveryRecord) (sid : String)
    (b : Bool) :
    attempt_recovery_db db sid b =
      db ++ [{ stream_id := sid, success := b, updated := true }] := by
  have hget : ∀ (l : List RecoveryRecord) (x : RecoveryRecord),
      (l ++ [x]).get? l.length = some x := by
    intro l x
    induction l with
    | nil => rfl
    | cons a t ih => exact ih
  unfold attempt_recovery_db create_recovery_attempt update_recovery_attempt
  simp only [hget]
  have hset : ∀ (l : List RecoveryRecord) (x y : RecoveryRecord),
      (l ++ [x]).set l.length y = l ++ [y] := by
    intro l x y
    induction l with
    | nil => rfl
    | cons a t ih => exact congrArg (a :: ·) ih
  exact hset db _ _

/-- After any sequence of completed attempt_recovery calls, every stored
recovery row is updated. -/
theorem run_attempts_updated (calls : List (String × Bool)) :
    ∀ db, (∀ r ∈ db, r.updated = true) →
      ∀ r ∈ run_attempts db calls, r.updated = true := by
  induction calls with
  | nil => intro db h; exact h
  | cons c rest ih =>
    intro db h
    obtain ⟨sid, b⟩ := c
    refine ih (attempt_recovery_db db sid b) ?_
    intro r hr
    rw [attempt_recovery_db_eq] at hr
    rcases List.mem_append.mp hr with h1 | h1
    · exact h r h1
    · rw [List.mem_singleton.mp h1]

/-- A store whose rows are all updated has no in-flight attempt for any
pipeline. -/
theorem filter_pending_nil (db : List RecoveryRecord)
    (h : ∀ r ∈ db, r.updated = true) (sid : String) :
    db.filter (fun r => r.stream_id == sid && r.updated == false) = [] := by
  rw [List.filter_eq_nil_iff]
  intro r hr
  simp [h r hr]

/-- C9 counterexample: two consecutive failed recoveries for the same
pipeline leave two rows whose success flag is false (a finished failed
attempt keeps success = FALSE), refuting the claim that at most one row per
pipeline ever has a false success flag. -/
theorem C9_counterexample :
    unresolved_count (run_attempts [] [("s1", false), ("s1", false)]) "s1"
      = 2 := by decide

/-- C9 amended: at most one RecoveryAttempt row per pipeline is in flight
(created by attempt_recovery but not yet finalized by
update_recovery_attempt) at any reachable point: after any sequence of
completed calls no row is in flight, immediately after the create step of
the next call exactly one is, and when that call completes none is.
Rows whose success flag is false accumulate, one per failed attempt, since
a failed attempt is finalized with success = false. -/
theorem C9_amended_single_inflight (calls : List (String × Bool))
    (sid : String) (b : Bool) :
    pending_count (run_attempts [] calls) sid = 0 ∧
    pending_count (create_recovery_attempt (run_attempts [] calls) sid).1 sid
      = 1 ∧
    pending_count (attempt_recovery_db (run_attempts [] calls) sid b) sid
      = 0 := by
  have hupd : ∀ r ∈ run_attempts [] calls, r.updated = true :=
    run_attempts_updated calls []
      (by intro r hr; exact absurd hr (List.not_mem_nil r))
  have hnil := filter_pending_nil (run_attempts [] calls) hupd sid
  refine ⟨?_, ?_, ?_⟩
  · unfold pending_count
    rw [hnil]
    rfl
  · unfold pending_count create_recovery_attempt
    rw [List.filter_append, hnil]
    simp
  · rw [attempt_recovery_db_eq]
    unfold pending_count
    rw [List.filter_append, hnil]
    simp

/-- C10: start_streaming on a live instance returns the already-running
failure result and leaves the entire instance state (status, process set,
config quality, counters, flags) unchanged. -/
theorem C10_start_rejected_when_live (s : StreamState) (launch_ok : Bool)
    (h : s.status = "live") :
    start_streaming s launch_ok =
      ((false, "Stream is already running"), s) := by
  simp [start_streaming, h]

/-- Witness for C10 at a concrete live instance. -/
theorem C10_witness :
    start_streaming ⟨"live", ["renderer", "ffmpeg"], "high", 1, 90, false⟩
        true =
      ((false, "Stream is already running"),
       ⟨"live", ["renderer", "ffmpeg"], "high", 1, 90, false⟩) :=
  C10_start_rejected_when_live
    ⟨"live", ["renderer", "ffmpeg"], "high", 1, 90, false⟩ true rfl

end RTMPBase
